import Mathlib

/-!
Shallow embedding of the control-plane of `src/vLLM.py` (a Modal app serving
vLLM behind a FastAPI frontend): the SQLite-backed conversation store, the
admin-token gate, the vLLM process supervision and hot-reload handler, and the
SSE streaming chat relay.  Machine integers are modelled as `Nat`/`Int`;
the float defaults (`temperature`) are modelled as rationals; wall-clock time
and generated uuids are passed in as explicit parameters.  SQL `ORDER BY` is
modelled with `List.insertionSort`.
-/

namespace VLLMApp

/-- `BASE_VLLM_PORT = 4321` from the source configuration block. -/
def BASE_VLLM_PORT : Nat := 4321

/-- `DEFAULT_MODEL_NAME` from the source configuration block. -/
def DEFAULT_MODEL_NAME : String := "ByteDance-Seed/Seed-OSS-36B-Instruct"

/-! ## Conversation store (SQLite schema: sessions / messages / templates) -/

/-- A row of `sessions (id TEXT PRIMARY KEY, title, model, system, created_at)`. -/
structure SessionRow where
  id : String
  title : String
  model : String
  system : String
  created_at : Nat
deriving Repr, DecidableEq

/-- A row of `messages (id INTEGER PRIMARY KEY AUTOINCREMENT, session_id, role, content, ts)`. -/
structure MsgRow where
  id : Nat
  session_id : String
  role : String
  content : String
  ts : Nat
deriving Repr, DecidableEq

/-- A row of `templates (id TEXT PRIMARY KEY, name, prompt, created_at)`. -/
structure TemplateRow where
  id : String
  name : String
  prompt : String
  created_at : Nat
deriving Repr, DecidableEq

/-- The SQLite database: table contents in insertion order plus the
`AUTOINCREMENT` counter for `messages.id`. -/
structure Store where
  sessions : List SessionRow
  messages : List MsgRow
  templates : List TemplateRow
  nextMsgId : Nat
deriving Repr, DecidableEq

/-- The view `SELECT role,content,ts FROM messages` returns. -/
structure MsgView where
  role : String
  content : String
  ts : Nat
deriving Repr, DecidableEq

/-- `ORDER BY created_at DESC` comparator for sessions. -/
def sessDesc (a b : SessionRow) : Prop := b.created_at ≤ a.created_at

instance : DecidableRel sessDesc := fun a b => Nat.decLe _ _

instance : IsTotal SessionRow sessDesc :=
  ⟨fun a b => Nat.le_total b.created_at a.created_at⟩

instance : IsTrans SessionRow sessDesc :=
  ⟨fun _ _ _ h1 h2 => Nat.le_trans h2 h1⟩

/-- `ORDER BY created_at DESC` comparator for templates. -/
def tplDesc (a b : TemplateRow) : Prop := b.created_at ≤ a.created_at

instance : DecidableRel tplDesc := fun a b => Nat.decLe _ _

instance : IsTotal TemplateRow tplDesc :=
  ⟨fun a b => Nat.le_total b.created_at a.created_at⟩

instance : IsTrans TemplateRow tplDesc :=
  ⟨fun _ _ _ h1 h2 => Nat.le_trans h2 h1⟩

/-- `ORDER BY id ASC` comparator for messages. -/
def msgIdLe (a b : MsgRow) : Prop := a.id ≤ b.id

instance : DecidableRel msgIdLe := fun a b => Nat.decLe _ _

instance : IsTotal MsgRow msgIdLe := ⟨fun a b => Nat.le_total a.id b.id⟩

instance : IsTrans MsgRow msgIdLe := ⟨fun _ _ _ h1 h2 => Nat.le_trans h1 h2⟩

/-- `new_session`: `INSERT INTO sessions (id,title,model,system,created_at)`.
The generated uuid `sid` and `now_ts()` are passed in explicitly; the
`model or current_model` Python-truthiness defaulting happens at call sites. -/
def new_session (st : Store) (sid title model system : String) (now : Nat) : Store :=
  { st with sessions := st.sessions ++ [⟨sid, title, model, system, now⟩] }

/-- `session_get`: `SELECT * FROM sessions WHERE id=?` (first matching row). -/
def session_get (st : Store) (sid : String) : Option SessionRow :=
  st.sessions.find? (fun s => s.id == sid)

/-- `session_list`: `SELECT id,title,model,system,created_at FROM sessions
ORDER BY created_at DESC`. -/
def session_list (st : Store) : List SessionRow :=
  st.sessions.insertionSort sessDesc

/-- `session_delete`: delete the session's messages then the session row. -/
def session_delete (st : Store) (sid : String) : Store :=
  { st with
    messages := st.messages.filter (fun m => ¬ m.session_id = sid)
    sessions := st.sessions.filter (fun s => ¬ s.id = sid) }

/-- `messages_get`: `SELECT role,content,ts FROM messages WHERE session_id=?
ORDER BY id ASC`. -/
def messages_get (st : Store) (sid : String) : List MsgView :=
  (((st.messages.filter (fun m => m.session_id == sid))).insertionSort msgIdLe).map
    (fun m => ⟨m.role, m.content, m.ts⟩)

/-- `message_add`: `INSERT INTO messages (session_id,role,content,ts)`; the
`AUTOINCREMENT` primary key assigns the next id. -/
def message_add (st : Store) (sid role content : String) (now : Nat) : Store :=
  { st with
    messages := st.messages ++ [⟨st.nextMsgId, sid, role, content, now⟩]
    nextMsgId := st.nextMsgId + 1 }

/-- `save_template`: `INSERT INTO templates (id,name,prompt,created_at)`. -/
def save_template (st : Store) (tid name prompt : String) (now : Nat) : Store :=
  { st with templates := st.templates ++ [⟨tid, name, prompt, now⟩] }

/-- `list_templates`: `SELECT * FROM templates ORDER BY created_at DESC`. -/
def list_templates (st : Store) : List TemplateRow :=
  st.templates.insertionSort tplDesc

/-- Well-formedness of a reachable store: message ids strictly increase in
table order (AUTOINCREMENT) and are all below the counter. -/
def Store.WF (st : Store) : Prop :=
  st.messages.Pairwise (fun a b => a.id < b.id) ∧ ∀ m ∈ st.messages, m.id < st.nextMsgId

instance (st : Store) : Decidable st.WF := by
  unfold Store.WF; infer_instance

/-! ## Admin token gate -/

/-- `check_admin_token`: open mode when `ADMIN_TOKEN` is unset; otherwise the
header must be present, non-empty (Python truthiness of the string), and equal
to the secret after stripping a leading `Bearer ` (Python
`split(' ',1)[1]` on a string starting with `Bearer ` is `drop 7`). -/
def check_admin_token (adminToken headerToken : Option String) : Bool :=
  match adminToken with
  | none => true
  | some secret =>
    match headerToken with
    | none => false
    | some t =>
      if t = "" then false
      else (if "Bearer ".isPrefixOf t then t.drop 7 else t) = secret

/-- The route-level guard `if ADMIN_TOKEN and not check_admin_token(...)`:
an unset or empty (falsy) `ADMIN_TOKEN` short-circuits to "allowed". -/
def adminGateDenies (adminToken headerToken : Option String) : Bool :=
  match adminToken with
  | none => false
  | some secret =>
    if secret = "" then false else ¬ check_admin_token (some secret) headerToken

/-! ## Process supervision (`vllm_procs`, `start_vllm_on_port`, `stop_vllm_port`) -/

/-- Insert/overwrite a key in a Python dict modelled as an association list. -/
def dictInsert (l : List (Nat × Nat)) (k v : Nat) : List (Nat × Nat) :=
  if l.any (fun p => p.1 == k) then l.map (fun p => if p.1 == k then (k, v) else p)
  else l ++ [(k, v)]

/-- `dict.pop(k, None)`: drop the entry for `k` (keys are unique in a dict). -/
def dictPop (l : List (Nat × Nat)) (k : Nat) : List (Nat × Nat) :=
  l.filter (fun p => ¬ p.1 = k)

/-- `dict.get(k)`. -/
def dictGet (l : List (Nat × Nat)) (k : Nat) : Option Nat :=
  (l.find? (fun p => p.1 == k)).map Prod.snd

/-- The web-server runtime state: the `vllm_procs` port→process map (process
handles numbered by spawn order), the spawn counter, `active_port`, and event
logs recording each port ever passed to `start_vllm_on_port` respectively
`stop_vllm_port`. -/
structure SrvState where
  procs : List (Nat × Nat)
  nextProcId : Nat
  active_port : Nat
  startedLog : List Nat
  stopLog : List Nat
deriving Repr, DecidableEq

/-- `start_vllm_on_port(port, model_ref, revision)`: unconditionally spawns a
`vllm serve` subprocess and records it under `vllm_procs[port]` (overwriting
any previous entry); returns the process handle.  The model/revision only
shape the spawned command line, not the supervision state. -/
def start_vllm_on_port (st : SrvState) (port : Nat) (model_ref : String)
    (revision : Option String) : SrvState × Nat :=
  let _ := model_ref
  let _ := revision
  ({ st with
      procs := dictInsert st.procs port st.nextProcId
      nextProcId := st.nextProcId + 1
      startedLog := st.startedLog ++ [port] },
   st.nextProcId)

/-- `stop_vllm_port(port)`: terminate the tracked process if any, then
`vllm_procs.pop(port, None)`; idempotent on untracked ports. -/
def stop_vllm_port (st : SrvState) (port : Nat) : SrvState :=
  { st with procs := dictPop st.procs port, stopLog := st.stopLog ++ [port] }

/-- `max(list(vllm_procs.keys())+[BASE_VLLM_PORT])` from the reload handler. -/
def maxTracked (st : SrvState) : Nat :=
  (st.procs.map Prod.fst).foldl max BASE_VLLM_PORT

/-- The server state right after boot: the initial
`start_vllm_on_port(BASE_VLLM_PORT, DEFAULT_MODEL_NAME, DEFAULT_MODEL_REV)`
with `active_port = BASE_VLLM_PORT`. -/
def bootState : SrvState :=
  (start_vllm_on_port
    { procs := [], nextProcId := 0, active_port := BASE_VLLM_PORT,
      startedLog := [], stopLog := [] }
    BASE_VLLM_PORT DEFAULT_MODEL_NAME (some "6f42c8b5bf8f3f687bd6fb28833da03a19867ce8")).1

/-! ## Hot reload (`/api/models/reload`) -/

/-- The JSON responses the reload handler can produce, with their HTTP status. -/
inductive ReloadResp where
  /-- 200 `{'ok':True,'active_port':p}` -/
  | ok (active_port : Nat)
  /-- 401 `{'error':'unauthorized'}` -/
  | unauthorized
  /-- 400 `{'error':'missing model'}` -/
  | missingModel
  /-- 500 `{'error':'new vllm not ready: …'}` -/
  | notReady (msg : String)
deriving Repr, DecidableEq

/-- HTTP status code of a reload response. -/
def ReloadResp.status : ReloadResp → Nat
  | .ok _ => 200
  | .unauthorized => 401
  | .missingModel => 400
  | .notReady _ => 500

/-- Request body of `/api/models/reload`. -/
structure ReloadBody where
  model : Option String
  revision : Option String
deriving Repr, DecidableEq

/-- Python truthiness of `body.get('model')`: `None` and `''` are falsy. -/
def optStrTruthy : Option String → Bool
  | none => false
  | some s => ¬ s = ""

/-- First half of the reload handler body, up to the `await` on the readiness
probe: allocate `new_port = max(keys+[BASE])+1` and start vLLM on it.
Returns the state while the readiness wait is pending, and the new port. -/
def reload_phase1 (st : SrvState) (model : String) (rev : Option String) :
    SrvState × Nat :=
  let new_port := maxTracked st + 1
  ((start_vllm_on_port st new_port model rev).1, new_port)

/-- Second half of the reload handler, after the readiness probe resolves:
on probe failure stop the new process and answer 500; on success swap
`active_port` to the new port, then stop the old one. -/
def reload_phase2 (st : SrvState) (new_port : Nat) (probe : Except String Unit) :
    SrvState × ReloadResp :=
  match probe with
  | .error e => (stop_vllm_port st new_port, .notReady ("new vllm not ready: " ++ e))
  | .ok _ =>
    let old_port := st.active_port
    let st2 := { st with active_port := new_port }
    (stop_vllm_port st2 old_port, .ok new_port)

/-- `api_models_reload`: admin gate, body validation, then start / wait /
swap / stop.  The readiness probe's outcome is the `probe` parameter. -/
def api_models_reload (adminToken : Option String) (st : SrvState)
    (body : ReloadBody) (authorization : Option String)
    (probe : Except String Unit) : SrvState × ReloadResp :=
  if adminGateDenies adminToken authorization then (st, .unauthorized)
  else if ¬ optStrTruthy body.model then (st, .missingModel)
  else
    let model := body.model.getD ""
    let p1 := reload_phase1 st model body.revision
    reload_phase2 p1.1 p1.2 probe

/-- A sequence of reload calls (fixed valid body, open admin mode), each with
its own readiness-probe outcome; returns the final server state. -/
def runReloads (st : SrvState) (probes : List (Except String Unit)) : SrvState :=
  probes.foldl
    (fun s pr => (api_models_reload none s ⟨some "m", none⟩ none pr).1) st

/-! ## Streaming chat relay (`/api/chat/stream`) and `/api/chat` -/

/-- The parsed `choices[0].delta` of one upstream SSE record: `content` is
`None` or a string, `tool_calls` is `None` or a list (payload items kept
abstract as strings). -/
structure UpDelta where
  content : Option String
  tool_calls : Option (List String)
deriving Repr, DecidableEq

/-- The `data:` payload of one upstream line: the `[DONE]` sentinel, a record
that parses as JSON, or unparseable junk (`json.loads` raises, `continue`). -/
inductive UpData where
  | done
  | evt (d : UpDelta)
  | junk
deriving Repr, DecidableEq

/-- One upstream line: a `data:`-prefixed record, or any other line (skipped). -/
inductive UpLine where
  | data (d : UpData)
  | other (s : String)
deriving Repr, DecidableEq

/-- How the upstream byte stream ends if the `[DONE]` sentinel has not been
seen by then: normal end of stream, client cancellation
(`asyncio.CancelledError`), or a raised exception. -/
inductive UpTerm where
  | eof
  | cancelled
  | error (msg : String)
deriving Repr, DecidableEq

/-- The upstream stream as consumed by the generator. -/
structure Upstream where
  lines : List UpLine
  term : UpTerm
deriving Repr, DecidableEq

/-- The outward SSE events `{type: token|tool|error|done}`. -/
inductive OutEvt where
  | token (t : String)
  | tool (p : List String)
  | error (m : String)
  | done
deriving Repr, DecidableEq

/-- The event-emitting loop of `sse_gen`: per `data:` line, `[DONE]` emits
`done` and returns; a parsed record emits a `token` event when
`delta.get('content')` is truthy and a `tool` event when
`delta.get('tool_calls')` is truthy; other lines are skipped.  A
`CancelledError` ends the generator silently; any other exception emits a
single `error` event.  The generator performs no store writes. -/
def sse_gen : List UpLine → UpTerm → List OutEvt
  | [], .eof => []
  | [], .cancelled => []
  | [], .error e => [.error e]
  | .other _ :: rest, t => sse_gen rest t
  | .data .done :: _, _ => [.done]
  | .data .junk :: rest, t => sse_gen rest t
  | .data (.evt d) :: rest, t =>
    (match d.content with
     | some s => if s = "" then [] else [.token s]
     | none => []) ++
    (match d.tool_calls with
     | some l => if l = [] then [] else [.tool l]
     | none => []) ++
    sse_gen rest t

/-- Concatenation of the texts of all `token` events of a stream. -/
def tokensConcat (evs : List OutEvt) : String :=
  evs.foldl (fun acc e => match e with | .token t => acc ++ t | _ => acc) ""

/-- An element of the request body's `messages` array. -/
structure InMsg where
  role : Option String
  content : Option String
deriving Repr, DecidableEq

/-- Request body of `/api/chat/stream` and `/api/chat` (the frontend also
sends a `system` field, which the handlers never read). -/
structure ChatBody where
  session_id : Option String
  messages : List InMsg
  model : Option String
  temperature : Option ℚ
  max_tokens : Option Int
  system : Option String
deriving Repr, DecidableEq

/-- Python `a or b` on an optional string: `None` and `''` are falsy. -/
def pyOrStr (a : Option String) (b : String) : String :=
  match a with
  | none => b
  | some s => if s = "" then b else s

/-- The loop `for m in body.get('messages', []): if m.get('role')=='user':
message_add(sid,'user',m.get('content',''))`. -/
def appendUserMsgs (st : Store) (sid : String) (msgs : List InMsg) (now : Nat) :
    Store :=
  msgs.foldl
    (fun s m =>
      if m.role == some "user" then message_add s sid "user" (m.content.getD "") now
      else s)
    st

/-- The JSON payload posted to the backend's `/v1/chat/completions`
(float defaults modelled as rationals). -/
structure ChatPayload where
  model : String
  messages : List MsgView
  temperature : ℚ
  max_tokens : Int
  stream : Bool
deriving Repr, DecidableEq

/-- Payload construction shared by `chat_stream` (`'stream':True`) and
`chat_once` (`'stream':False`): the `messages` field is exactly
`messages_get(sid)` on the current store. -/
def chatPayload (current_model : String) (body : ChatBody) (st : Store)
    (sid : String) (stream : Bool) : ChatPayload :=
  { model := pyOrStr body.model current_model
    messages := messages_get st sid
    temperature := body.temperature.getD (7 / 10)
    max_tokens := body.max_tokens.getD 512
    stream := stream }

/-- Result of a `/api/chat/stream` call. -/
structure StreamResult where
  store : Store
  sid : String
  payload : ChatPayload
  events : List OutEvt
deriving Repr, DecidableEq

/-- `chat_stream`: resolve `sid = body.get('session_id') or new_session()`,
append the body's `user`-role messages to the store, then run `sse_gen`
against the upstream stream.  `freshSid` is the uuid a `new_session()` call
would generate and `now` is `now_ts()`.  Note that `sse_gen` never writes to
the store, so the store returned is the one from before the backend call. -/
def chat_stream (current_model : String) (st : Store) (body : ChatBody)
    (up : Upstream) (freshSid : String) (now : Nat) : StreamResult :=
  let resolved : Store × String :=
    match body.session_id with
    | some s =>
      if s = "" then (new_session st freshSid "新对话" current_model "" now, freshSid)
      else (st, s)
    | none => (new_session st freshSid "新对话" current_model "" now, freshSid)
  let st1 := appendUserMsgs resolved.1 resolved.2 body.messages now
  { store := st1
    sid := resolved.2
    payload := chatPayload current_model body st1 resolved.2 true
    events := sse_gen up.lines up.term }

/-- The backend's non-streaming chat-completions answer, reduced to the parts
`chat_once` reads: the HTTP status and
`choices[0].message.content` (defaulted to `''`). -/
structure BackendOnceResp where
  status : Nat
  reply : String
deriving Repr, DecidableEq

/-- Result of a `/api/chat` call. -/
structure OnceResult where
  store : Store
  sid : String
  payload : ChatPayload
  reply : Option String
deriving Repr, DecidableEq

/-- `chat_once`: same session resolution and user-message persistence as the
streaming path, a `'stream': False` payload, and — unlike the streaming
path — persistence of a truthy reply as an `assistant` message. -/
def chat_once (current_model : String) (st : Store) (body : ChatBody)
    (resp : BackendOnceResp) (freshSid : String) (now : Nat) : OnceResult :=
  let resolved : Store × String :=
    match body.session_id with
    | some s =>
      if s = "" then (new_session st freshSid "新对话" current_model "" now, freshSid)
      else (st, s)
    | none => (new_session st freshSid "新对话" current_model "" now, freshSid)
  let st1 := appendUserMsgs resolved.1 resolved.2 body.messages now
  let payload := chatPayload current_model body st1 resolved.2 false
  if resp.status ≠ 200 then
    { store := st1, sid := resolved.2, payload := payload, reply := none }
  else
    let st2 := if resp.reply = "" then st1
               else message_add st1 resolved.2 "assistant" resp.reply now
    { store := st2, sid := resolved.2, payload := payload, reply := some resp.reply }

/-! ## Session export / import -/

/-- The file `/api/sessions/{sid}/export` writes:
`{'session': dict(s), 'messages': messages_get(sid)}`. -/
structure ExportPayload where
  session : SessionRow
  messages : List MsgView
deriving Repr, DecidableEq

/-- `api_sessions_export`: 404 on an unknown session, else the payload. -/
def api_sessions_export (st : Store) (sid : String) : Option ExportPayload :=
  (session_get st sid).map (fun s => ⟨s, messages_get st sid⟩)

/-- `api_sessions_import` on a payload of the exported shape:
`sid = s.get('id') if s and s.get('id') else uuid4…`, then
`INSERT OR REPLACE` of the session row and a plain `INSERT` of every
message (fresh AUTOINCREMENT ids, existing messages untouched). -/
def api_sessions_import (st : Store) (p : ExportPayload) (freshSid : String)
    (now : Nat) : Store :=
  let _ := now
  let sid := if p.session.id = "" then freshSid else p.session.id
  let row : SessionRow :=
    { id := sid, title := p.session.title, model := p.session.model,
      system := p.session.system, created_at := p.session.created_at }
  let sessions' :=
    if st.sessions.any (fun s => s.id == sid) then
      st.sessions.map (fun s => if s.id == sid then row else s)
    else st.sessions ++ [row]
  p.messages.foldl
    (fun acc m => message_add acc sid m.role m.content m.ts)
    { st with sessions := sessions' }

/-- The message rows a batch insert of views `ms` for session `sid` produces
when the AUTOINCREMENT counter starts at `i`. -/
def importRows (sid : String) (i : Nat) : List MsgView → List MsgRow
  | [] => []
  | m :: rest => ⟨i, sid, m.role, m.content, m.ts⟩ :: importRows sid (i + 1) rest

/-- The views of the `user`-role entries of a request body's `messages`
array, as `chat_stream`/`chat_once` persist them (`role='user'`,
`content = m.get('content','')`, `ts = now_ts()`). -/
def userViews (msgs : List InMsg) (now : Nat) : List MsgView :=
  (msgs.filter (fun m => m.role == some "user")).map
    (fun m => ⟨"user", m.content.getD "", now⟩)

/-- A small populated store used to exercise the store operations:
two sessions, three messages across them, two templates. -/
def sampleStore : Store :=
  { sessions := [⟨"a", "t1", "m", "sys", 5⟩, ⟨"b", "t2", "m", "sys", 9⟩]
    messages := [⟨0, "a", "user", "x", 1⟩, ⟨1, "b", "user", "y", 2⟩,
                 ⟨2, "a", "assistant", "z", 3⟩]
    templates := [⟨"ta", "n", "p", 4⟩, ⟨"tb", "n2", "p2", 8⟩]
    nextMsgId := 3 }

/-- A one-session store with a two-message conversation, used to exercise
export and import. -/
def exportStore : Store :=
  { sessions := [⟨"s1", "t", "m", "sy", 5⟩]
    messages := [⟨0, "s1", "user", "hi", 6⟩, ⟨1, "s1", "assistant", "yo", 7⟩]
    templates := []
    nextMsgId := 2 }

/-- The payload `api_sessions_export exportStore "s1"` produces. -/
def exportedPayload : ExportPayload :=
  { session := ⟨"s1", "t", "m", "sy", 5⟩
    messages := [⟨"user", "hi", 6⟩, ⟨"assistant", "yo", 7⟩] }

/-- `sampleStore` with the sessions and templates tables emptied: same
messages table, different session metadata (in particular no stored system
prompts). -/
def sampleStoreNoSessions : Store :=
  { sampleStore with sessions := [], templates := [] }

/-- Invariant of the reload loop under successful reloads: the start log is
strictly increasing, bounded by the maximal tracked port, and the active port
is tracked-or-base. -/
def ReloadInv (st : SrvState) : Prop :=
  st.startedLog.Pairwise (· < ·) ∧
  (∀ q ∈ st.startedLog, q ≤ maxTracked st) ∧
  st.active_port ≤ maxTracked st

instance (st : SrvState) : Decidable (ReloadInv st) := by
  unfold ReloadInv; infer_instance

/-! ## Helper lemmas -/

lemma le_foldl_max_init : ∀ (l : List Nat) (a : Nat), a ≤ l.foldl max a
  | [], _ => le_refl _
  | h :: t, a => le_trans (le_max_left a h) (le_foldl_max_init t _)

lemma mem_le_foldl_max : ∀ (l : List Nat) (a x : Nat), x ∈ l → x ≤ l.foldl max a
  | h :: t, a, x, hx => by
    rcases List.mem_cons.mp hx with rfl | hx'
    · exact le_trans (le_max_right a x) (le_foldl_max_init t _)
    · exact mem_le_foldl_max t _ x hx'

/-- Every tracked port is at most `maxTracked`. -/
lemma key_le_maxTracked {st : SrvState} {q : Nat × Nat} (hq : q ∈ st.procs) :
    q.1 ≤ maxTracked st :=
  mem_le_foldl_max _ _ _ (List.mem_map_of_mem Prod.fst hq)

/-- `maxTracked` is at least the base port. -/
lemma base_le_maxTracked (st : SrvState) : BASE_VLLM_PORT ≤ maxTracked st :=
  le_foldl_max_init _ _

/-- The freshly allocated reload port is not tracked. -/
lemma key_ne_newPort {st : SrvState} {q : Nat × Nat} (hq : q ∈ st.procs) :
    q.1 ≠ maxTracked st + 1 :=
  Nat.ne_of_lt (Nat.lt_succ_of_le (key_le_maxTracked hq))

/-- Inserting a fresh key into a dict appends it. -/
lemma dictInsert_fresh {l : List (Nat × Nat)} {k : Nat} (v : Nat)
    (h : ∀ q ∈ l, q.1 ≠ k) : dictInsert l k v = l ++ [(k, v)] := by
  unfold dictInsert
  have hany : l.any (fun p => p.1 == k) = false := by
    simp only [List.any_eq_false, beq_iff_eq]
    exact h
  rw [hany]
  simp

/-- Popping a fresh key after inserting it restores the dict. -/
lemma dictPop_dictInsert_fresh {l : List (Nat × Nat)} {k : Nat} (v : Nat)
    (h : ∀ q ∈ l, q.1 ≠ k) : dictPop (dictInsert l k v) k = l := by
  rw [dictInsert_fresh v h]
  unfold dictPop
  rw [List.filter_append]
  have h1 : l.filter (fun p => decide (¬ p.1 = k)) = l := by
    apply List.filter_eq_self.mpr
    intro q hq
    exact decide_eq_true (h q hq)
  have h2 : List.filter (fun p => decide (¬ p.1 = k)) [(k, v)] = [] := by simp
  rw [h1, h2, List.append_nil]

/-- Popping keeps entries with other keys. -/
lemma mem_dictPop {l : List (Nat × Nat)} {q : Nat × Nat} {k : Nat}
    (hq : q ∈ l) (hne : q.1 ≠ k) : q ∈ dictPop l k :=
  List.mem_filter.mpr ⟨hq, by simpa using hne⟩

lemma find?_map_replace {k v : Nat} : ∀ (t : List (Nat × Nat)),
    t.any (fun p => p.1 == k) = true →
    (t.map (fun p => if p.1 == k then (k, v) else p)).find? (fun p => p.1 == k) =
      some (k, v) := by
  intro t
  induction t with
  | nil => intro h; simp at h
  | cons h t ih =>
    intro hany
    by_cases hk : h.1 = k
    · simp [List.find?_cons, hk]
    · have hb : (h.1 == k) = false := beq_eq_false_iff_ne.mpr hk
      have ht : t.any (fun p => p.1 == k) = true := by
        simpa [List.any_cons, hb] using hany
      simp only [List.map_cons, hb, if_false, List.find?_cons, Bool.false_eq_true]
      exact ih ht

lemma find?_append_fresh {k v : Nat} : ∀ (t : List (Nat × Nat)),
    (∀ q ∈ t, q.1 ≠ k) →
    (t ++ [(k, v)]).find? (fun p => p.1 == k) = some (k, v) := by
  intro t
  induction t with
  | nil => intro _; simp
  | cons h t ih =>
    intro hfresh
    have hb : (h.1 == k) = false :=
      beq_eq_false_iff_ne.mpr (hfresh h (List.mem_cons_self h t))
    simp only [List.cons_append, List.find?_cons, hb, Bool.false_eq_true]
    exact ih (fun q hq => hfresh q (List.mem_cons_of_mem h hq))

/-- `dictGet` after `dictInsert` at the same key yields the inserted value. -/
lemma dictGet_dictInsert (l : List (Nat × Nat)) (k v : Nat) :
    dictGet (dictInsert l k v) k = some v := by
  unfold dictInsert dictGet
  by_cases hany : l.any (fun p => p.1 == k) = true
  · rw [if_pos hany, find?_map_replace l hany]
    rfl
  · rw [if_neg hany]
    have hfresh : ∀ q ∈ l, q.1 ≠ k := by
      intro q hq hk
      exact hany (List.any_eq_true.mpr ⟨q, hq, beq_iff_eq.mpr hk⟩)
    rw [find?_append_fresh l hfresh]
    rfl

/-- Shapes of the rows produced by `importRows`. -/
lemma importRows_mem {sid : String} : ∀ {ms : List MsgView} {i : Nat}
    {r : MsgRow}, r ∈ importRows sid i ms →
    r.session_id = sid ∧ i ≤ r.id ∧ r.id < i + ms.length ∧
      (⟨r.role, r.content, r.ts⟩ : MsgView) ∈ ms := by
  intro ms
  induction ms with
  | nil => intro i r hr; simp [importRows] at hr
  | cons m rest ih =>
    intro i r hr
    rcases List.mem_cons.mp hr with rfl | hr'
    · refine ⟨rfl, le_refl _, ?_, List.mem_cons_self _ _⟩
      simp only [List.length_cons]
      omega
    · obtain ⟨h1, h2, h3, h4⟩ := ih hr'
      refine ⟨h1, le_trans (Nat.le_succ i) h2, ?_, List.mem_cons_of_mem _ h4⟩
      simp only [List.length_cons] at h3 ⊢
      omega

/-- `importRows` ids strictly increase. -/
lemma importRows_pairwise {sid : String} : ∀ (ms : List MsgView) (i : Nat),
    (importRows sid i ms).Pairwise (fun a b => a.id < b.id) := by
  intro ms
  induction ms with
  | nil => intro i; simp [importRows]
  | cons m rest ih =>
    intro i
    refine List.pairwise_cons.mpr ⟨?_, ih (i + 1)⟩
    intro r hr
    exact Nat.lt_of_lt_of_le (Nat.lt_succ_self i) (importRows_mem hr).2.1

/-- Mapping the stored view off `importRows` restores the input views. -/
lemma importRows_view {sid : String} : ∀ (ms : List MsgView) (i : Nat),
    (importRows sid i ms).map (fun r => (⟨r.role, r.content, r.ts⟩ : MsgView)) = ms := by
  intro ms
  induction ms with
  | nil => intro i; simp [importRows]
  | cons m rest ih => intro i; simp [importRows, ih]

/-- All `importRows` rows belong to the target session. -/
lemma importRows_filter_self {sid : String} (ms : List MsgView) (i : Nat) :
    (importRows sid i ms).filter (fun m => m.session_id == sid) =
      importRows sid i ms :=
  List.filter_eq_self.mpr (fun r hr => by simp [(importRows_mem hr).1])

/-- Value of a successful reload call (open admin mode, non-empty model):
start on `maxTracked+1`, swap the active port to it, stop the old one. -/
lemma reload_ok_eq (st : SrvState) (m : String) (rev : Option String) (hm : m ≠ "") :
    api_models_reload none st ⟨some m, rev⟩ none (Except.ok ()) =
      ({ procs := dictPop (dictInsert st.procs (maxTracked st + 1) st.nextProcId)
            st.active_port,
         nextProcId := st.nextProcId + 1,
         active_port := maxTracked st + 1,
         startedLog := st.startedLog ++ [maxTracked st + 1],
         stopLog := st.stopLog ++ [st.active_port] },
       .ok (maxTracked st + 1)) := by
  simp [api_models_reload, adminGateDenies, optStrTruthy, reload_phase1, reload_phase2,
    start_vllm_on_port, stop_vllm_port, hm]

/-- Value of a failed reload call: the new process is started and stopped
again, the port map and the active port are restored, and the caller gets
the 500 response carrying the probe error. -/
lemma reload_err_eq (adminTok : Option String) (st : SrvState) (body : ReloadBody)
    (auth : Option String) (e : String)
    (hgate : adminGateDenies adminTok auth = false)
    (hm : optStrTruthy body.model = true) :
    api_models_reload adminTok st body auth (Except.error e) =
      ({ procs := st.procs,
         nextProcId := st.nextProcId + 1,
         active_port := st.active_port,
         startedLog := st.startedLog ++ [maxTracked st + 1],
         stopLog := st.stopLog ++ [maxTracked st + 1] },
       .notReady ("new vllm not ready: " ++ e)) := by
  have hfresh : ∀ q ∈ st.procs, q.1 ≠ maxTracked st + 1 := fun q hq => key_ne_newPort hq
  simp [api_models_reload, hgate, hm, reload_phase1, reload_phase2,
    start_vllm_on_port, stop_vllm_port, dictPop_dictInsert_fresh _ hfresh]

/-- A successful reload preserves `ReloadInv` (and strictly extends the log). -/
lemma reload_ok_inv {st : SrvState} (h : ReloadInv st) :
    ReloadInv (api_models_reload none st ⟨some "m", none⟩ none (Except.ok ())).1 := by
  obtain ⟨h1, h2, h3⟩ := h
  rw [reload_ok_eq st "m" none (by decide)]
  have hfresh : ∀ q ∈ st.procs, q.1 ≠ maxTracked st + 1 := fun q hq => key_ne_newPort hq
  have hmemIns : (maxTracked st + 1, st.nextProcId) ∈
      dictInsert st.procs (maxTracked st + 1) st.nextProcId := by
    rw [dictInsert_fresh _ hfresh]
    exact List.mem_append_right _ (List.mem_singleton.mpr rfl)
  have hne : (maxTracked st + 1, st.nextProcId).1 ≠ st.active_port := by
    simp only
    omega
  have hmem : (maxTracked st + 1, st.nextProcId) ∈
      dictPop (dictInsert st.procs (maxTracked st + 1) st.nextProcId) st.active_port :=
    mem_dictPop hmemIns hne
  have hPle : maxTracked st + 1 ≤
      maxTracked { procs := dictPop (dictInsert st.procs (maxTracked st + 1)
                      st.nextProcId) st.active_port,
                   nextProcId := st.nextProcId + 1,
                   active_port := maxTracked st + 1,
                   startedLog := st.startedLog ++ [maxTracked st + 1],
                   stopLog := st.stopLog ++ [st.active_port] } := by
    simp only [maxTracked]
    exact mem_le_foldl_max _ _ _ (List.mem_map_of_mem Prod.fst hmem)
  refine ⟨?_, ?_, hPle⟩
  · refine List.pairwise_append.mpr ⟨h1, List.pairwise_singleton _ _, ?_⟩
    intro a ha b hb
    rw [List.mem_singleton] at hb
    subst hb
    exact Nat.lt_succ_of_le (h2 a ha)
  · intro q hq
    rcases List.mem_append.mp hq with hq' | hq'
    · exact le_trans (le_trans (h2 q hq') (Nat.le_succ _)) hPle
    · rw [List.mem_singleton] at hq'
      subst hq'
      exact hPle

/-- `ReloadInv` is preserved along any all-successful reload sequence. -/
lemma runReloads_inv : ∀ (probes : List (Except String Unit)) (st : SrvState),
    ReloadInv st → (∀ p ∈ probes, p = Except.ok ()) →
    ReloadInv (runReloads st probes) := by
  intro probes
  induction probes with
  | nil => intro st h _; exact h
  | cons p ps ih =>
    intro st h hall
    have hp : p = Except.ok () := hall p (List.mem_cons_self _ _)
    subst hp
    exact ih _ (reload_ok_inv h) (fun q hq => hall q (List.mem_cons_of_mem _ hq))

/-- Unfolding the user-message persistence loop of the chat handlers. -/
lemma appendUserMsgs_eq (sid : String) (now : Nat) : ∀ (msgs : List InMsg) (st : Store),
    appendUserMsgs st sid msgs now =
      { st with
          messages := st.messages ++ importRows sid st.nextMsgId (userViews msgs now),
          nextMsgId := st.nextMsgId + (userViews msgs now).length } := by
  intro msgs
  induction msgs with
  | nil => intro st; simp [appendUserMsgs, userViews, importRows]
  | cons m rest ih =>
    intro st
    by_cases hr : m.role = some "user"
    · have hrb : (m.role == some "user") = true := beq_iff_eq.mpr hr
      have h1 : appendUserMsgs st sid (m :: rest) now =
          appendUserMsgs (message_add st sid "user" (m.content.getD "") now) sid rest now := by
        simp [appendUserMsgs, hr, hrb]
      have hv : userViews (m :: rest) now =
          ⟨"user", m.content.getD "", now⟩ :: userViews rest now := by
        simp [userViews, List.filter_cons, hrb]
      rw [h1, ih, hv]
      simp only [importRows, List.length_cons, message_add]
      simp only [Store.mk.injEq, true_and, and_true]
      refine ⟨?_, ?_⟩
      · simp [List.append_assoc]
      · omega
    · have hrb : (m.role == some "user") = false :=
        beq_eq_false_iff_ne.mpr hr
      have h1 : appendUserMsgs st sid (m :: rest) now = appendUserMsgs st sid rest now := by
        simp [appendUserMsgs, hr, hrb]
      have hv : userViews (m :: rest) now = userViews rest now := by
        simp [userViews, List.filter_cons, hrb]
      rw [h1, ih, hv]

/-- Unfolding the batch message insert of `api_sessions_import`. -/
lemma fold_message_add (sid : String) : ∀ (ms : List MsgView) (acc : Store),
    ms.foldl (fun a m => message_add a sid m.role m.content m.ts) acc =
      { acc with
          messages := acc.messages ++ importRows sid acc.nextMsgId ms,
          nextMsgId := acc.nextMsgId + ms.length } := by
  intro ms
  induction ms with
  | nil => intro acc; simp [importRows]
  | cons m rest ih =>
    intro acc
    have h1 : (m :: rest).foldl (fun a m => message_add a sid m.role m.content m.ts) acc =
        rest.foldl (fun a m => message_add a sid m.role m.content m.ts)
          (message_add acc sid m.role m.content m.ts) := rfl
    rw [h1, ih]
    simp only [importRows, List.length_cons, message_add]
    simp only [Store.mk.injEq, true_and, and_true]
    refine ⟨?_, ?_⟩
    · simp [List.append_assoc]
    · omega

lemma sorted_of_pairwise_lt {l : List MsgRow}
    (h : l.Pairwise (fun a b => a.id < b.id)) : List.Sorted msgIdLe l :=
  h.imp (fun hab => le_of_lt hab)

/-- On a well-formed store `ORDER BY id ASC` is the insertion order of the
`messages` table. -/
lemma messages_get_eq_filter {st : Store} (h : st.WF) (sid : String) :
    messages_get st sid =
      (st.messages.filter (fun m => m.session_id == sid)).map
        (fun m => ⟨m.role, m.content, m.ts⟩) := by
  unfold messages_get
  congr 1
  apply List.Sorted.insertionSort_eq
  exact sorted_of_pairwise_lt (h.1.sublist (List.filter_sublist _))

/-- Appending a batch of fresh rows preserves store well-formedness. -/
lemma WF_append_importRows {st : Store} (h : st.WF) (sid : String) (ms : List MsgView) :
    Store.WF { st with
        messages := st.messages ++ importRows sid st.nextMsgId ms,
        nextMsgId := st.nextMsgId + ms.length } := by
  obtain ⟨h1, h2⟩ := h
  constructor
  · refine List.pairwise_append.mpr ⟨h1, importRows_pairwise ms st.nextMsgId, ?_⟩
    intro a ha b hb
    exact lt_of_lt_of_le (h2 a ha) (importRows_mem hb).2.1
  · intro m hm
    rcases List.mem_append.mp hm with hm' | hm'
    · exact lt_of_lt_of_le (h2 m hm') (Nat.le_add_right _ _)
    · have h3 := (importRows_mem hm').2.2.1
      simpa using h3

/-- Reading back a freshly inserted batch when the base table holds no rows
of the target session. -/
lemma messages_get_append_fresh {base : List MsgRow} {sid : String}
    (hclean : ∀ r ∈ base, r.session_id ≠ sid) (sess : List SessionRow)
    (tpl : List TemplateRow) (i n : Nat) (ms : List MsgView) :
    messages_get
      { sessions := sess, messages := base ++ importRows sid i ms,
        templates := tpl, nextMsgId := n } sid = ms := by
  unfold messages_get
  simp only
  rw [List.filter_append]
  have hb : base.filter (fun m => m.session_id == sid) = [] := by
    rw [List.filter_eq_nil_iff]
    intro r hr
    simp [hclean r hr]
  rw [hb, List.nil_append, importRows_filter_self,
    List.Sorted.insertionSort_eq (sorted_of_pairwise_lt (importRows_pairwise ms i))]
  exact importRows_view ms i

lemma sess_find_map_replace {sid : String} {row : SessionRow} (hrow : row.id = sid) :
    ∀ (l : List SessionRow), l.any (fun s => s.id == sid) = true →
    (l.map (fun s => if s.id == sid then row else s)).find? (fun s => s.id == sid) =
      some row := by
  intro l
  induction l with
  | nil => intro h; simp at h
  | cons h t ih =>
    intro hany
    by_cases hk : h.id = sid
    · have hrb : (row.id == sid) = true := beq_iff_eq.mpr hrow
      simp [List.find?_cons, hk, hrb]
    · have hb : (h.id == sid) = false := beq_eq_false_iff_ne.mpr hk
      have ht : t.any (fun s => s.id == sid) = true := by
        simpa [List.any_cons, hb] using hany
      simp only [List.map_cons, hb, Bool.false_eq_true, if_false, List.find?_cons]
      exact ih ht

lemma sess_find_append {sid : String} {row : SessionRow} (hrow : row.id = sid) :
    ∀ (l : List SessionRow), l.any (fun s => s.id == sid) = false →
    (l ++ [row]).find? (fun s => s.id == sid) = some row := by
  intro l
  induction l with
  | nil =>
    intro _
    have hrb : (row.id == sid) = true := beq_iff_eq.mpr hrow
    simp [List.find?_cons, hrb]
  | cons h t ih =>
    intro hany
    have hb : (h.id == sid) = false := by
      rcases List.any_eq_false.mp hany h (List.mem_cons_self h t) with hb'
      simpa using hb'
    simp only [List.cons_append, List.find?_cons, hb, Bool.false_eq_true]
    exact ih (by
      rw [List.any_eq_false]
      intro s hs
      exact (List.any_eq_false.mp hany) s (List.mem_cons_of_mem h hs))

/-- The `INSERT OR REPLACE` of `api_sessions_import` makes the imported
session row the one found for its id. -/
lemma session_get_import (st2 : Store) (p : ExportPayload) (fresh : String) (now : Nat)
    (hid : p.session.id ≠ "") :
    session_get (api_sessions_import st2 p fresh now) p.session.id = some p.session := by
  unfold api_sessions_import
  rw [if_neg hid, fold_message_add]
  unfold session_get
  simp only
  by_cases hany : st2.sessions.any (fun s => s.id == p.session.id) = true
  · rw [if_pos hany]
    exact sess_find_map_replace rfl _ hany
  · rw [if_neg hany]
    exact sess_find_append rfl _ (Bool.not_eq_true _ ▸ Bool.of_not_eq_true hany)

/-- Importing into a store with no messages of the target session restores
exactly the payload's message list. -/
lemma messages_get_import (st2 : Store) (p : ExportPayload) (fresh : String) (now : Nat)
    (hid : p.session.id ≠ "") (hclean : ∀ r ∈ st2.messages, r.session_id ≠ p.session.id) :
    messages_get (api_sessions_import st2 p fresh now) p.session.id = p.messages := by
  unfold api_sessions_import
  rw [if_neg hid, fold_message_add]
  exact messages_get_append_fresh hclean _ _ _ _ _

/-- Every row the chat handlers persist before the backend call carries the
`user` role. -/
lemma importRows_userViews_role {sid : String} {i now : Nat} {msgs : List InMsg}
    {r : MsgRow} (hr : r ∈ importRows sid i (userViews msgs now)) :
    r.role = "user" := by
  have h := (importRows_mem hr).2.2.2
  unfold userViews at h
  rcases List.mem_map.mp h with ⟨m, _, hm⟩
  exact (congrArg MsgView.role hm).symm

/-- The store a `/api/chat/stream` call leaves behind: the caller's store
plus the persisted `user`-role rows — independent of the upstream events. -/
lemma chat_stream_store_msgs (cm : String) (st : Store) (body : ChatBody)
    (up : Upstream) (fresh : String) (now : Nat) :
    (chat_stream cm st body up fresh now).store.messages =
      st.messages ++ importRows (chat_stream cm st body up fresh now).sid
        st.nextMsgId (userViews body.messages now) := by
  unfold chat_stream
  rcases hb : body.session_id with _ | s
  · simp [appendUserMsgs_eq, new_session]
  · by_cases hs : s = "" <;> simp [hs, appendUserMsgs_eq, new_session]

lemma chat_stream_store_WF {cm : String} {st : Store} (body : ChatBody)
    (up : Upstream) (fresh : String) (now : Nat) (h : st.WF) :
    (chat_stream cm st body up fresh now).store.WF := by
  unfold chat_stream
  rcases hb : body.session_id with _ | s
  · simp only
    rw [appendUserMsgs_eq]
    exact WF_append_importRows h _ _
  · by_cases hs : s = ""
    · simp only [hs, if_pos rfl]
      rw [appendUserMsgs_eq]
      exact WF_append_importRows h _ _
    · simp only [hs, if_neg hs]
      rw [appendUserMsgs_eq]
      exact WF_append_importRows h _ _

lemma messages_get_only_messages {a b : Store} (h : a.messages = b.messages)
    (sid : String) : messages_get a sid = messages_get b sid := by
  unfold messages_get
  rw [h]

/-- Session resolution depends only on the body and the fresh uuid. -/
lemma chat_stream_sid_eq (cm : String) (st st2 : Store) (body : ChatBody)
    (up up2 : Upstream) (fresh : String) (now : Nat) :
    (chat_stream cm st body up fresh now).sid =
      (chat_stream cm st2 body up2 fresh now).sid := by
  unfold chat_stream
  rcases hb : body.session_id with _ | s
  · rfl
  · by_cases hs : s = "" <;> simp [hs]

/-! ## Claim theorems -/

/-- C1: on a streaming chat request that runs to normal completion (the
upstream stream ends with the `[DONE]` sentinel, yielding a final `done`
event), the concatenated token text ("Hello") is NOT persisted: the store
holds only the user message appended before the call and no assistant-role
row at all.  This contradicts the claim (and §4.4.5 of the spec); the
non-streaming `/api/chat` path does persist the reply, and later requests
send the stored history to the backend, so the missing write loses the
assistant turn from both the UI history and the model context. -/
theorem chat_stream_completion_discards_reply :
    (chat_stream "cm" ⟨[⟨"s1", "t", "m", "sy", 5⟩], [], [], 0⟩
        ⟨some "s1", [⟨some "user", some "hi"⟩], none, none, none, none⟩
        ⟨[.data (.evt ⟨some "Hel", none⟩), .data (.evt ⟨some "lo", none⟩), .data .done],
         .eof⟩ "fresh" 7).events
      = [.token "Hel", .token "lo", .done] ∧
    tokensConcat
      (chat_stream "cm" ⟨[⟨"s1", "t", "m", "sy", 5⟩], [], [], 0⟩
        ⟨some "s1", [⟨some "user", some "hi"⟩], none, none, none, none⟩
        ⟨[.data (.evt ⟨some "Hel", none⟩), .data (.evt ⟨some "lo", none⟩), .data .done],
         .eof⟩ "fresh" 7).events = "Hello" ∧
    (chat_stream "cm" ⟨[⟨"s1", "t", "m", "sy", 5⟩], [], [], 0⟩
        ⟨some "s1", [⟨some "user", some "hi"⟩], none, none, none, none⟩
        ⟨[.data (.evt ⟨some "Hel", none⟩), .data (.evt ⟨some "lo", none⟩), .data .done],
         .eof⟩ "fresh" 7).store.messages
      = [⟨0, "s1", "user", "hi", 7⟩] ∧
    (chat_stream "cm" ⟨[⟨"s1", "t", "m", "sy", 5⟩], [], [], 0⟩
        ⟨some "s1", [⟨some "user", some "hi"⟩], none, none, none, none⟩
        ⟨[.data (.evt ⟨some "Hel", none⟩), .data (.evt ⟨some "lo", none⟩), .data .done],
         .eof⟩ "fresh" 7).store.messages.filter (fun m => m.role == "assistant")
      = [] := by
  decide

/-- C2 counterexample: from the boot state, a failed reload (probe error)
followed by any further reload passes port 4322 to `start_vllm_on_port`
twice — the sequence of started ports is neither strictly increasing nor
duplicate-free, because a failed reload pops its port from `vllm_procs`
and the next allocation `max(keys+[BASE])+1` recomputes the same value. -/
theorem reload_port_reuse_after_failure :
    (runReloads bootState [Except.error "boom", Except.ok ()]).startedLog
      = [4321, 4322, 4322] ∧
    ¬ ((runReloads bootState [Except.error "boom", Except.ok ()]).startedLog).Pairwise
        (· < ·) ∧
    ¬ ((runReloads bootState [Except.error "boom", Except.ok ()]).startedLog).Nodup := by
  decide

/-- C2 (amended): for every sequence of reload calls all of whose readiness
probes succeed, the ports passed to `start_vllm_on_port` are strictly
increasing and no port is passed twice; after a failed reload the allocated
port is untracked again and can be reused (see the counterexample). -/
theorem reload_ports_monotonic_when_all_succeed (probes : List (Except String Unit))
    (h : ∀ p ∈ probes, p = Except.ok ()) :
    ((runReloads bootState probes).startedLog).Pairwise (· < ·) ∧
    ((runReloads bootState probes).startedLog).Nodup := by
  have hinv := runReloads_inv probes bootState (by decide) h
  exact ⟨hinv.1, hinv.1.imp (fun hab => Nat.ne_of_lt hab)⟩

/-- Witness for C2: two successful reloads from boot yield a strictly
increasing, duplicate-free start log. -/
theorem reload_ports_monotonic_when_all_succeed_witness :
    (∀ p ∈ [Except.ok (), Except.ok ()], p = (Except.ok () : Except String Unit)) ∧
    (((runReloads bootState [Except.ok (), Except.ok ()]).startedLog).Pairwise (· < ·) ∧
     ((runReloads bootState [Except.ok (), Except.ok ()]).startedLog).Nodup) :=
  ⟨by simp, reload_ports_monotonic_when_all_succeed _ (by simp)⟩

/-- C3: when the readiness probe of a reload fails, the active port is
unchanged, the port map is exactly restored (the new port is untracked),
the newly spawned process was stopped (its port is appended to the stop
log), and the caller receives the 500 response carrying the probe's
error. -/
theorem failed_reload_isolation (adminTok : Option String) (st : SrvState)
    (body : ReloadBody) (auth : Option String) (e : String)
    (hgate : adminGateDenies adminTok auth = false)
    (hm : optStrTruthy body.model = true) :
    (api_models_reload adminTok st body auth (Except.error e)).1.active_port
      = st.active_port ∧
    (api_models_reload adminTok st body auth (Except.error e)).1.procs = st.procs ∧
    (maxTracked st + 1) ∉
      ((api_models_reload adminTok st body auth (Except.error e)).1.procs.map Prod.fst) ∧
    (api_models_reload adminTok st body auth (Except.error e)).1.stopLog
      = st.stopLog ++ [maxTracked st + 1] ∧
    (api_models_reload adminTok st body auth (Except.error e)).2
      = .notReady ("new vllm not ready: " ++ e) ∧
    ((api_models_reload adminTok st body auth (Except.error e)).2).status = 500 := by
  rw [reload_err_eq adminTok st body auth e hgate hm]
  refine ⟨rfl, rfl, ?_, rfl, rfl, rfl⟩
  intro hmem
  obtain ⟨q, hq, hq1⟩ := List.mem_map.mp hmem
  exact key_ne_newPort hq hq1

/-- Witness for C3 at the boot state with probe error "boom". -/
theorem failed_reload_isolation_witness :
    (adminGateDenies none none = false ∧
     optStrTruthy (ReloadBody.mk (some "x") none).model = true) ∧
    ((api_models_reload none bootState ⟨some "x", none⟩ none
        (Except.error "boom")).1.active_port = bootState.active_port ∧
     (api_models_reload none bootState ⟨some "x", none⟩ none
        (Except.error "boom")).1.procs = bootState.procs ∧
     (maxTracked bootState + 1) ∉
       ((api_models_reload none bootState ⟨some "x", none⟩ none
          (Except.error "boom")).1.procs.map Prod.fst) ∧
     (api_models_reload none bootState ⟨some "x", none⟩ none
        (Except.error "boom")).1.stopLog
       = bootState.stopLog ++ [maxTracked bootState + 1] ∧
     (api_models_reload none bootState ⟨some "x", none⟩ none
        (Except.error "boom")).2 = .notReady ("new vllm not ready: " ++ "boom") ∧
     ((api_models_reload none bootState ⟨some "x", none⟩ none
        (Except.error "boom")).2).status = 500) :=
  ⟨⟨by decide, by decide⟩,
   failed_reload_isolation none bootState ⟨some "x", none⟩ none "boom"
     (by decide) (by decide)⟩

/-- C4 counterexample: exporting session `s1` of `exportStore` (two
messages) and importing the resulting payload back into the same store
yields four messages for `s1`, not two — `api_sessions_import` only
appends message rows and never deletes the existing ones. -/
theorem export_import_duplicates_messages :
    api_sessions_export exportStore "s1" = some exportedPayload ∧
    (messages_get exportStore "s1").length = 2 ∧
    (messages_get (api_sessions_import exportStore exportedPayload "f" 9) "s1").length
      = 4 := by
  decide

/-- C4 (amended): exporting a session and importing the payload into a
store that holds no messages for that session id (for example after the
session was deleted, or a fresh store) restores the session row (same
title, model, system prompt, creation time) and exactly the original
messages in their original order. -/
theorem export_import_roundtrip_into_clean_store (st st2 : Store) (sid : String)
    (p : ExportPayload) (fresh : String) (now : Nat)
    (hexp : api_sessions_export st sid = some p)
    (hsid : sid ≠ "")
    (hclean : ∀ r ∈ st2.messages, r.session_id ≠ sid) :
    session_get st sid = some p.session ∧
    session_get (api_sessions_import st2 p fresh now) sid = some p.session ∧
    messages_get (api_sessions_import st2 p fresh now) sid = p.messages ∧
    p.messages = messages_get st sid ∧
    (messages_get (api_sessions_import st2 p fresh now) sid).length
      = (messages_get st sid).length := by
  unfold api_sessions_export at hexp
  rcases Option.map_eq_some'.mp hexp with ⟨row, hrow, hp⟩
  have hid : row.id = sid := by
    unfold session_get at hrow
    have h := List.find?_some hrow
    exact beq_iff_eq.mp h
  have hpsess : p.session = row := by rw [← hp]
  have hpmsgs : p.messages = messages_get st sid := by rw [← hp]
  have hpid : p.session.id = sid := by rw [hpsess, hid]
  have hid2 : p.session.id ≠ "" := by rw [hpid]; exact hsid
  have hclean2 : ∀ r ∈ st2.messages, r.session_id ≠ p.session.id := by
    rw [hpid]; exact hclean
  have h1 : session_get (api_sessions_import st2 p fresh now) sid = some p.session := by
    rw [← hpid]
    exact session_get_import st2 p fresh now hid2
  have h2 : messages_get (api_sessions_import st2 p fresh now) sid = p.messages := by
    rw [← hpid]
    exact messages_get_import st2 p fresh now hid2 hclean2
  refine ⟨by rw [hrow, hpsess], h1, h2, hpmsgs, ?_⟩
  rw [h2, hpmsgs]

/-- Witness for C4: export from `exportStore`, delete the session, import
again — the two messages come back in order under the original metadata. -/
theorem export_import_roundtrip_into_clean_store_witness :
    (api_sessions_export exportStore "s1" = some exportedPayload ∧
     "s1" ≠ "" ∧
     (∀ r ∈ (session_delete exportStore "s1").messages, r.session_id ≠ "s1")) ∧
    (session_get exportStore "s1" = some exportedPayload.session ∧
     session_get (api_sessions_import (session_delete exportStore "s1")
        exportedPayload "f" 9) "s1" = some exportedPayload.session ∧
     messages_get (api_sessions_import (session_delete exportStore "s1")
        exportedPayload "f" 9) "s1" = exportedPayload.messages ∧
     exportedPayload.messages = messages_get exportStore "s1" ∧
     (messages_get (api_sessions_import (session_delete exportStore "s1")
        exportedPayload "f" 9) "s1").length = (messages_get exportStore "s1").length) :=
  ⟨⟨by decide, by decide, by decide⟩,
   export_import_roundtrip_into_clean_store exportStore
     (session_delete exportStore "s1") "s1" exportedPayload "f" 9
     (by decide) (by decide) (by decide)⟩

/-- C5: the admin gate allows everything when no secret is configured; with
a configured (non-empty) secret, a presented token is accepted exactly when
it equals the secret after stripping an optional `Bearer ` prefix; a
missing token is rejected; a rejected reload request returns the 401
response unchanged-state (so no process is started); and with no secret the
reload handler can never answer 401. -/
theorem admin_gate_spec (s t : String) (tok auth : Option String)
    (st : SrvState) (body : ReloadBody) (probe : Except String Unit)
    (hs : s ≠ "") :
    check_admin_token none tok = true ∧
    check_admin_token (some s) none = false ∧
    (check_admin_token (some s) (some t) = true ↔
      (if "Bearer ".isPrefixOf t then t.drop 7 else t) = s) ∧
    (check_admin_token (some s) auth = false →
      api_models_reload (some s) st body auth probe = (st, .unauthorized) ∧
      (api_models_reload (some s) st body auth probe).1.startedLog = st.startedLog ∧
      ReloadResp.unauthorized.status = 401) ∧
    (api_models_reload none st body auth probe).2 ≠ .unauthorized := by
  refine ⟨rfl, rfl, ?_, ?_, ?_⟩
  · by_cases ht : t = ""
    · subst ht
      have hpre : ("Bearer ".isPrefixOf "") = false := by decide
      simp [check_admin_token, hpre]
      exact fun hcontra => hs hcontra.symm
    · simp [check_admin_token, ht]
  · intro hcheck
    have hden : adminGateDenies (some s) auth = true := by
      simp [adminGateDenies, hs, hcheck]
    have heq : api_models_reload (some s) st body auth probe = (st, .unauthorized) := by
      simp [api_models_reload, hden]
    exact ⟨heq, by rw [heq], rfl⟩
  · have hg : adminGateDenies none auth = false := rfl
    by_cases hmm : optStrTruthy body.model = true
    · cases probe with
      | error e => simp [api_models_reload, hg, hmm, reload_phase2]
      | ok u => simp [api_models_reload, hg, hmm, reload_phase2]
    · rw [Bool.not_eq_true] at hmm
      simp [api_models_reload, hg, hmm]

/-- Witness for C5: secret "sec", bearer token "Bearer sec" accepted, wrong
token rejected with 401 and no start. -/
theorem admin_gate_spec_witness :
    ("sec" ≠ "") ∧
    (check_admin_token none none = true ∧
     check_admin_token (some "sec") none = false ∧
     (check_admin_token (some "sec") (some "Bearer sec") = true ↔
       (if "Bearer ".isPrefixOf "Bearer sec" then ("Bearer sec").drop 7
        else "Bearer sec") = "sec") ∧
     (check_admin_token (some "sec") (some "wrong") = false →
       api_models_reload (some "sec") bootState ⟨some "x", none⟩ (some "wrong")
          (Except.ok ()) = (bootState, .unauthorized) ∧
       (api_models_reload (some "sec") bootState ⟨some "x", none⟩ (some "wrong")
          (Except.ok ())).1.startedLog = bootState.startedLog ∧
       ReloadResp.unauthorized.status = 401) ∧
     (api_models_reload none bootState ⟨some "x", none⟩ (some "wrong")
        (Except.ok ())).2 ≠ .unauthorized) :=
  ⟨by decide,
   admin_gate_spec "sec" "Bearer sec" none (some "wrong") bootState
     ⟨some "x", none⟩ (Except.ok ()) (by decide)⟩

/-- C6 counterexample: port 4321 is tracked in the boot state, yet
`start_vllm_on_port` on 4321 spawns a second process (handle 1), records it
over the old map entry, and logs a second start on 4321 — there is no
`PortInUse` failure. -/
theorem start_on_tracked_port_spawns :
    (4321 ∈ bootState.procs.map Prod.fst) ∧
    (start_vllm_on_port bootState 4321 "m" none).1.nextProcId
      = bootState.nextProcId + 1 ∧
    (start_vllm_on_port bootState 4321 "m" none).1.startedLog = [4321, 4321] ∧
    dictGet (start_vllm_on_port bootState 4321 "m" none).1.procs 4321 = some 1 := by
  decide

/-- C6 (amended): `start_vllm_on_port` performs no port-collision check and
cannot fail: on every call — tracked port or not — it spawns a fresh
process, maps the port to it (replacing any previous entry), and appends
the port to the start log. -/
theorem start_never_rejects_tracked_port (st : SrvState) (port : Nat) (m : String)
    (rev : Option String) :
    (start_vllm_on_port st port m rev).2 = st.nextProcId ∧
    (start_vllm_on_port st port m rev).1.nextProcId = st.nextProcId + 1 ∧
    (start_vllm_on_port st port m rev).1.startedLog = st.startedLog ++ [port] ∧
    dictGet (start_vllm_on_port st port m rev).1.procs port = some st.nextProcId := by
  refine ⟨rfl, rfl, rfl, ?_⟩
  simp [start_vllm_on_port, dictGet_dictInsert]

/-- C7: a streaming chat request cancelled mid-generation leaves the store
holding exactly the messages present before the backend request was issued:
the prior rows plus the `user`-role inputs appended before the call, all of
which carry role "user" — in particular no assistant-role
message is recorded (the assistant-row set is unchanged). -/
theorem cancelled_stream_persists_no_assistant (cm : String) (st : Store)
    (body : ChatBody) (lines : List UpLine) (fresh : String) (now : Nat) :
    (chat_stream cm st body ⟨lines, .cancelled⟩ fresh now).store.messages =
      st.messages ++
        importRows (chat_stream cm st body ⟨lines, .cancelled⟩ fresh now).sid
          st.nextMsgId (userViews body.messages now) ∧
    (∀ r ∈ importRows (chat_stream cm st body ⟨lines, .cancelled⟩ fresh now).sid
        st.nextMsgId (userViews body.messages now),
      r.role = "user" ∧
        r.session_id = (chat_stream cm st body ⟨lines, .cancelled⟩ fresh now).sid) ∧
    (chat_stream cm st body ⟨lines, .cancelled⟩ fresh now).store.messages.filter
        (fun m => m.role == "assistant") =
      st.messages.filter (fun m => m.role == "assistant") ∧
    (importRows (chat_stream cm st body ⟨lines, .cancelled⟩ fresh now).sid
        st.nextMsgId (userViews body.messages now)).map
      (fun r => (⟨r.role, r.content, r.ts⟩ : MsgView)) = userViews body.messages now := by
  have hstore := chat_stream_store_msgs cm st body ⟨lines, .cancelled⟩ fresh now
  refine ⟨hstore, ?_, ?_, importRows_view _ _⟩
  · intro r hr
    exact ⟨importRows_userViews_role hr, (importRows_mem hr).1⟩
  · rw [hstore, List.filter_append]
    have hnil : (importRows (chat_stream cm st body ⟨lines, .cancelled⟩ fresh now).sid
        st.nextMsgId (userViews body.messages now)).filter
        (fun m => m.role == "assistant") = [] := by
      rw [List.filter_eq_nil_iff]
      intro r hr
      simp [importRows_userViews_role hr]
    rw [hnil, List.append_nil]

/-- C8 counterexample: while a first reload is awaiting readiness on port
4322 (`reload_phase1` done, probe pending), a second full reload request is
not rejected: it starts a process on port 4323 (the start log grows),
succeeds with status 200 and swaps the active port to 4323 — no
`ReloadInProgress` rejection exists. -/
theorem concurrent_reload_not_rejected :
    (reload_phase1 bootState "modelA" none).2 = 4322 ∧
    (reload_phase1 bootState "modelA" none).1.active_port = 4321 ∧
    (api_models_reload none (reload_phase1 bootState "modelA" none).1
        ⟨some "modelB", none⟩ none (Except.ok ())).2 = .ok 4323 ∧
    ((api_models_reload none (reload_phase1 bootState "modelA" none).1
        ⟨some "modelB", none⟩ none (Except.ok ())).2).status = 200 ∧
    (api_models_reload none (reload_phase1 bootState "modelA" none).1
        ⟨some "modelB", none⟩ none (Except.ok ())).1.startedLog
      = [4321, 4322, 4323] ∧
    (api_models_reload none (reload_phase1 bootState "modelA" none).1
        ⟨some "modelB", none⟩ none (Except.ok ())).1.active_port = 4323 := by
  decide

/-- C8 (amended): the reload handler has no serialization and no
`ReloadInProgress` response — every response has status 200, 400, 401 or
500 — and from any state (including a state in which another reload has
started its process and is awaiting readiness) a reload with a valid model
and passing gate proceeds: it starts a process on the next port and, when
the probe succeeds, swaps the active port to it and returns 200. -/
theorem reload_unserialized_proceeds (tok : Option String) (st st2 : SrvState)
    (body : ReloadBody) (auth : Option String) (probe : Except String Unit)
    (m : String) (rev : Option String) (hm : m ≠ "") :
    ((api_models_reload tok st body auth probe).2.status = 200 ∨
     (api_models_reload tok st body auth probe).2.status = 400 ∨
     (api_models_reload tok st body auth probe).2.status = 401 ∨
     (api_models_reload tok st body auth probe).2.status = 500) ∧
    (api_models_reload none st2 ⟨some m, rev⟩ none (Except.ok ())).2
      = .ok (maxTracked st2 + 1) ∧
    (api_models_reload none st2 ⟨some m, rev⟩ none (Except.ok ())).1.startedLog
      = st2.startedLog ++ [maxTracked st2 + 1] ∧
    (api_models_reload none st2 ⟨some m, rev⟩ none (Except.ok ())).1.active_port
      = maxTracked st2 + 1 := by
  constructor
  · by_cases hg : adminGateDenies tok auth = true
    · simp [api_models_reload, hg, ReloadResp.status]
    · rw [Bool.not_eq_true] at hg
      by_cases hmm : optStrTruthy body.model = true
      · cases probe with
        | error e => simp [api_models_reload, hg, hmm, reload_phase2, ReloadResp.status]
        | ok u => simp [api_models_reload, hg, hmm, reload_phase2, ReloadResp.status]
      · rw [Bool.not_eq_true] at hmm
        simp [api_models_reload, hg, hmm, ReloadResp.status]
  · rw [reload_ok_eq st2 m rev hm]
    exact ⟨rfl, rfl, rfl⟩

/-- Witness for C8: the second reload issued mid-first-reload (after
`reload_phase1` of the first) proceeds and succeeds. -/
theorem reload_unserialized_proceeds_witness :
    ("modelB" ≠ "") ∧
    (((api_models_reload none bootState ⟨some "x", none⟩ none (Except.ok ())).2.status = 200 ∨
      (api_models_reload none bootState ⟨some "x", none⟩ none (Except.ok ())).2.status = 400 ∨
      (api_models_reload none bootState ⟨some "x", none⟩ none (Except.ok ())).2.status = 401 ∨
      (api_models_reload none bootState ⟨some "x", none⟩ none (Except.ok ())).2.status = 500) ∧
     (api_models_reload none (reload_phase1 bootState "modelA" none).1
        ⟨some "modelB", none⟩ none (Except.ok ())).2
       = .ok (maxTracked (reload_phase1 bootState "modelA" none).1 + 1) ∧
     (api_models_reload none (reload_phase1 bootState "modelA" none).1
        ⟨some "modelB", none⟩ none (Except.ok ())).1.startedLog
       = (reload_phase1 bootState "modelA" none).1.startedLog
          ++ [maxTracked (reload_phase1 bootState "modelA" none).1 + 1] ∧
     (api_models_reload none (reload_phase1 bootState "modelA" none).1
        ⟨some "modelB", none⟩ none (Except.ok ())).1.active_port
       = maxTracked (reload_phase1 bootState "modelA" none).1 + 1) :=
  ⟨by decide,
   reload_unserialized_proceeds none bootState (reload_phase1 bootState "modelA" none).1
     ⟨some "x", none⟩ none (Except.ok ()) "modelB" none (by decide)⟩

/-- C9: session and template listings are ordered newest-first by
`created_at` (and are permutations of the respective tables), and on a
well-formed store the message listing of a session is exactly its rows in
insertion order (ascending AUTOINCREMENT id). -/
theorem list_operations_ordering (st : Store) (sid : String) (hWF : st.WF) :
    (session_list st).Pairwise (fun a b => b.created_at ≤ a.created_at) ∧
    List.Perm (session_list st) st.sessions ∧
    (list_templates st).Pairwise (fun a b => b.created_at ≤ a.created_at) ∧
    List.Perm (list_templates st) st.templates ∧
    messages_get st sid =
      (st.messages.filter (fun m => m.session_id == sid)).map
        (fun m => ⟨m.role, m.content, m.ts⟩) := by
  refine ⟨?_, ?_, ?_, ?_, messages_get_eq_filter hWF sid⟩
  · exact List.sorted_insertionSort sessDesc st.sessions
  · exact List.perm_insertionSort sessDesc st.sessions
  · exact List.sorted_insertionSort tplDesc st.templates
  · exact List.perm_insertionSort tplDesc st.templates

/-- Witness for C9 on `sampleStore` and session "a". -/
theorem list_operations_ordering_witness :
    sampleStore.WF ∧
    ((session_list sampleStore).Pairwise (fun a b => b.created_at ≤ a.created_at) ∧
     List.Perm (session_list sampleStore) sampleStore.sessions ∧
     (list_templates sampleStore).Pairwise (fun a b => b.created_at ≤ a.created_at) ∧
     List.Perm (list_templates sampleStore) sampleStore.templates ∧
     messages_get sampleStore "a" =
       (sampleStore.messages.filter (fun m => m.session_id == "a")).map
         (fun m => ⟨m.role, m.content, m.ts⟩)) :=
  ⟨by decide, list_operations_ordering sampleStore "a" (by decide)⟩

/-- C10: the payload sent to the backend chat-completions endpoint carries
exactly the session's persisted messages — `messages_get` on the store at
request time, i.e. the stored rows (role, content, ts) in insertion order
on a well-formed store; `chat_once` builds the identical payload apart from
the stream flag; the request body's `system` field changes nothing at all
(the handler never reads it); and the payload is unchanged under any change
of the sessions table — in particular of the stored system prompt — since
it depends only on the messages table. -/
theorem backend_payload_messages_exact (cm : String) (st st2 : Store)
    (body : ChatBody) (up : Upstream) (resp : BackendOnceResp) (fresh : String)
    (now : Nat) (sys sys2 : Option String)
    (hmsg : st.messages = st2.messages) (hnid : st.nextMsgId = st2.nextMsgId)
    (hWF : st.WF) :
    (chat_stream cm st body up fresh now).payload.messages =
      messages_get (chat_stream cm st body up fresh now).store
        (chat_stream cm st body up fresh now).sid ∧
    (chat_once cm st body resp fresh now).payload =
      { (chat_stream cm st body up fresh now).payload with stream := false } ∧
    chat_stream cm st { body with system := sys } up fresh now =
      chat_stream cm st { body with system := sys2 } up fresh now ∧
    chat_once cm st { body with system := sys } resp fresh now =
      chat_once cm st { body with system := sys2 } resp fresh now ∧
    (chat_stream cm st body up fresh now).payload =
      (chat_stream cm st2 body up fresh now).payload ∧
    (chat_stream cm st body up fresh now).payload.messages =
      ((chat_stream cm st body up fresh now).store.messages.filter
          (fun m => m.session_id == (chat_stream cm st body up fresh now).sid)).map
        (fun m => ⟨m.role, m.content, m.ts⟩) := by
  have hsid := chat_stream_sid_eq cm st st2 body up up fresh now
  have h1 := chat_stream_store_msgs cm st body up fresh now
  have h2 := chat_stream_store_msgs cm st2 body up fresh now
  have hmm : (chat_stream cm st body up fresh now).store.messages =
      (chat_stream cm st2 body up fresh now).store.messages := by
    rw [h1, h2, hmsg, hnid, hsid]
  refine ⟨rfl, ?_, rfl, rfl, ?_, ?_⟩
  · unfold chat_once chat_stream
    by_cases hs : resp.status = 200 <;> simp [hs, chatPayload]
  · show chatPayload cm body (chat_stream cm st body up fresh now).store
        (chat_stream cm st body up fresh now).sid true =
      chatPayload cm body (chat_stream cm st2 body up fresh now).store
        (chat_stream cm st2 body up fresh now).sid true
    unfold chatPayload
    have hmg : messages_get (chat_stream cm st body up fresh now).store
        (chat_stream cm st body up fresh now).sid =
        messages_get (chat_stream cm st2 body up fresh now).store
          (chat_stream cm st2 body up fresh now).sid := by
      rw [← hsid]
      exact messages_get_only_messages hmm _
    rw [hmg]
  · exact messages_get_eq_filter (chat_stream_store_WF body up fresh now hWF) _

/-- Witness for C10 on `sampleStore` versus the same messages table with
emptied sessions/templates. -/
theorem backend_payload_messages_exact_witness :
    (sampleStore.messages = sampleStoreNoSessions.messages ∧
     sampleStore.nextMsgId = sampleStoreNoSessions.nextMsgId ∧
     sampleStore.WF) ∧
    ((chat_stream "c" sampleStore ⟨some "a", [⟨some "user", some "q"⟩], none, none, none, none⟩
        ⟨[], .eof⟩ "f" 9).payload.messages =
      messages_get (chat_stream "c" sampleStore
        ⟨some "a", [⟨some "user", some "q"⟩], none, none, none, none⟩ ⟨[], .eof⟩ "f" 9).store
        (chat_stream "c" sampleStore
          ⟨some "a", [⟨some "user", some "q"⟩], none, none, none, none⟩ ⟨[], .eof⟩ "f" 9).sid ∧
     (chat_once "c" sampleStore ⟨some "a", [⟨some "user", some "q"⟩], none, none, none, none⟩
        ⟨200, "r"⟩ "f" 9).payload =
      { (chat_stream "c" sampleStore
          ⟨some "a", [⟨some "user", some "q"⟩], none, none, none, none⟩
          ⟨[], .eof⟩ "f" 9).payload with stream := false } ∧
     chat_stream "c" sampleStore
        { ChatBody.mk (some "a") [⟨some "user", some "q"⟩] none none none none with
          system := none } ⟨[], .eof⟩ "f" 9 =
      chat_stream "c" sampleStore
        { ChatBody.mk (some "a") [⟨some "user", some "q"⟩] none none none none with
          system := some "S" } ⟨[], .eof⟩ "f" 9 ∧
     chat_once "c" sampleStore
        { ChatBody.mk (some "a") [⟨some "user", some "q"⟩] none none none none with
          system := none } ⟨200, "r"⟩ "f" 9 =
      chat_once "c" sampleStore
        { ChatBody.mk (some "a") [⟨some "user", some "q"⟩] none none none none with
          system := some "S" } ⟨200, "r"⟩ "f" 9 ∧
     (chat_stream "c" sampleStore ⟨some "a", [⟨some "user", some "q"⟩], none, none, none, none⟩
        ⟨[], .eof⟩ "f" 9).payload =
      (chat_stream "c" sampleStoreNoSessions
        ⟨some "a", [⟨some "user", some "q"⟩], none, none, none, none⟩ ⟨[], .eof⟩ "f" 9).payload ∧
     (chat_stream "c" sampleStore ⟨some "a", [⟨some "user", some "q"⟩], none, none, none, none⟩
        ⟨[], .eof⟩ "f" 9).payload.messages =
      ((chat_stream "c" sampleStore
          ⟨some "a", [⟨some "user", some "q"⟩], none, none, none, none⟩
          ⟨[], .eof⟩ "f" 9).store.messages.filter
          (fun m => m.session_id ==
            (chat_stream "c" sampleStore
              ⟨some "a", [⟨some "user", some "q"⟩], none, none, none, none⟩
              ⟨[], .eof⟩ "f" 9).sid)).map
        (fun m => ⟨m.role, m.content, m.ts⟩)) :=
  ⟨⟨rfl, rfl, by decide⟩,
   backend_payload_messages_exact "c" sampleStore sampleStoreNoSessions
     ⟨some "a", [⟨some "user", some "q"⟩], none, none, none, none⟩ ⟨[], .eof⟩
     ⟨200, "r"⟩ "f" 9 none (some "S") rfl rfl (by decide)⟩

end VLLMApp
